import Mathlib

/-!
Verification of the ArtAnalytics collection harvester against its
natural-language specification.  The Lean definitions below are a shallow
embedding of the Python source under `src/`:

* `src/src/download/progress_tracker.py` — `BaseProgressTracker`
  (`log_status`, `is_processed`, `_save_progress`);
* `src/src/download/artwork_downloader.py` — `ArtworkDownloader`
  (`download_artwork`, `download_collection`, `_categorize_error`);
* `src/src/museums/base.py` — `MuseumAPIClient.iter_collection`;
* `src/src/museums/aic.py`, `met.py`, `cma.py` — the three progress-tracker
  variants and the data-dump iterator;
* `src/src/utils.py` — `sanitize_filename`.

Python sets of strings are modelled as `Finset String` (the serialization
`list(s)` followed by `set(l)` is the identity on sets, so a persisted set
field is modelled by the set itself).  Python dicts with string keys are
modelled as association lists with Python update semantics (update in
place, append new keys at the end).  Fallible code returns `Except`;
file-system effects are modelled by explicit state passing.
-/

namespace ArtAnalytics

/-! Section: ids

`log_status` and `is_processed` both coerce the incoming artwork id with
`str(...)` (progress_tracker.py lines 92 and 108).  Callers pass either an
`int` or a `str`, so ids are modelled as a sum of the two. -/

inductive PyId where
  | intId (n : Nat)
  | strId (s : String)
deriving DecidableEq, Repr

/-- Python `str(x)` on an artwork id. -/
def pyStr : PyId → String
  | .intId n => toString n
  | .strId s => s

/-! Section: Python dict operations (insertion-ordered association lists) -/

/-- Python `d.get(k)`: first binding of `k`, if any. -/
def dictFind {β : Type} : List (String × β) → String → Option β
  | [], _ => none
  | (k', v') :: rest, k => if k' = k then some v' else dictFind rest k

/-- Python `d[k] = v`: replace the binding in place, or append it. -/
def dictSet {β : Type} : List (String × β) → String → β → List (String × β)
  | [], k, v => [(k, v)]
  | (k', v') :: rest, k, v =>
      if k' = k then (k, v) :: rest else (k', v') :: dictSet rest k v

theorem dictFind_dictSet {β : Type} (d : List (String × β)) (k : String) (v : β) :
    dictFind (dictSet d k v) k = some v := by
  induction d with
  | nil => simp [dictSet, dictFind]
  | cons hd tl ih =>
      obtain ⟨k', v'⟩ := hd
      by_cases h : k' = k
      · simp [dictSet, dictFind, h]
      · simp [dictSet, dictFind, h, ih]

/-- Model of `error_log: Dict[str, Dict[str, str]]` from `ProgressState`. -/
abbrev ErrorLog := List (String × List (String × String))

/-! Section: `ProgressState` (progress_tracker.py lines 9-15) -/

structure ProgressState where
  processed_ids : Finset String
  success_ids : Finset String
  failed_ids : Finset String
  error_log : ErrorLog
deriving DecidableEq

/-- The empty state a fresh tracker starts from. -/
def emptyProgressState : ProgressState :=
  { processed_ids := ∅, success_ids := ∅, failed_ids := ∅, error_log := [] }

/-- Python truthiness of an optional string (`None` and `""` are falsy). -/
def optStrTruthy : Option String → Bool
  | none => false
  | some s => !(s == "")

/-- Embedding of `BaseProgressTracker.log_status` (progress_tracker.py lines 90-104),
the pure state transition (the trailing `_save_progress` call is modelled
separately in `logStatusFS`).  `if error_message:` is Python truthiness,
so an empty-string detail is not filed. -/
def logStatusState (st : ProgressState) (artworkId : PyId) (status : String)
    (errorMessage : Option String) : ProgressState :=
  let aid := pyStr artworkId
  let st1 :=
    if status = "success" then
      { st with success_ids := insert aid st.success_ids }
    else
      let stf := { st with failed_ids := insert aid st.failed_ids }
      if optStrTruthy errorMessage then
        let cat := (dictFind stf.error_log status).getD []
        { stf with
            error_log := dictSet stf.error_log status
              (dictSet cat aid (errorMessage.getD "")) }
      else stf
  { st1 with processed_ids := insert aid st1.processed_ids }

/-- Embedding of `BaseProgressTracker.is_processed` (progress_tracker.py lines 106-108). -/
def isProcessed (st : ProgressState) (artworkId : PyId) : Bool :=
  decide (pyStr artworkId ∈ st.processed_ids)

/-- Embedding of `BaseProgressTracker.get_statistics` (progress_tracker.py lines 110-117). -/
def getStatistics (st : ProgressState) : Nat × Nat × Nat × Nat :=
  (st.processed_ids.card, st.success_ids.card, st.failed_ids.card,
    (st.error_log.map (fun p => p.2.length)).sum)

/-! Section: file-system model for `_save_progress` (progress_tracker.py lines 76-88)

The save serializes the full state dict (`get_state_dict`, abstract in the
base class, so the document type `D` is a parameter) into
`progress_file.with_suffix('.tmp')` and then `temp_file.replace(...)`-renames
it over the progress file.  A file on disk is either a complete serialized
document or a truncated fragment of one. -/

inductive FileContent (D : Type) where
  | full (d : D)
  | truncated
deriving DecidableEq

structure TrackerFS (D : Type) where
  progressFile : Option (FileContent D)
  tempFile : Option (FileContent D)
deriving DecidableEq

/-- How far a `_save_progress` call got before the process was killed or an
I/O error was raised (the `except` clause catches and logs the error, so no
outcome propagates an exception). -/
inductive SaveOutcome where
  | failBeforeWrite
  | failMidWrite
  | failAfterWrite
  | completed
deriving DecidableEq

/-- Embedding of `BaseProgressTracker._save_progress` under every possible interruption
point: write the full dict to the temp file, then atomically rename the temp
file over the progress file. -/
def saveProgress {D : Type} (fs : TrackerFS D) (d : D) : SaveOutcome → TrackerFS D
  | .failBeforeWrite => fs
  | .failMidWrite => { fs with tempFile := some FileContent.truncated }
  | .failAfterWrite => { fs with tempFile := some (FileContent.full d) }
  | .completed => { progressFile := some (FileContent.full d), tempFile := none }

/-- Embedding of `log_status` together with its trailing `_save_progress` call
(progress_tracker.py line 104), on a save that completes. -/
def logStatusFS {D : Type} (serialize : ProgressState → D) (st : ProgressState)
    (fs : TrackerFS D) (artworkId : PyId) (status : String)
    (errorMessage : Option String) : ProgressState × TrackerFS D :=
  let st' := logStatusState st artworkId status errorMessage
  (st', saveProgress fs (serialize st') SaveOutcome.completed)

/-- C1: for every tracker state and every point of interruption during
`_save_progress`, the on-disk progress file afterward is either the previous
content or the complete new serialized state, never a truncated mixture; and
the save never propagates an error (it is a total function on outcomes,
mirroring the `except` clause that only logs). -/
theorem claim_C1 {D : Type} (fs : TrackerFS D) (d : D) (o : SaveOutcome) :
    (saveProgress fs d o).progressFile = fs.progressFile ∨
    (saveProgress fs d o).progressFile = some (FileContent.full d) := by
  cases o <;> simp [saveProgress]

/-- C2: `log_status(id, outcome, detail)` adds the id to `success_ids` when
the outcome is `"success"`, otherwise adds it to `failed_ids` and, when a
(truthy) detail is provided, files it under `error_log[outcome][id]`; in
every case it adds the id to `processed_ids`, persists the new state
write-through before returning, and a subsequent `is_processed(id)` returns
true. -/
theorem claim_C2 {D : Type} (serialize : ProgressState → D) (st : ProgressState)
    (fs : TrackerFS D) (artworkId : PyId) (status : String)
    (errorMessage : Option String) :
    (status = "success" →
      pyStr artworkId ∈
        (logStatusFS serialize st fs artworkId status errorMessage).1.success_ids) ∧
    (status ≠ "success" →
      pyStr artworkId ∈
        (logStatusFS serialize st fs artworkId status errorMessage).1.failed_ids) ∧
    (status ≠ "success" → ∀ d, errorMessage = some d → d ≠ "" →
      (dictFind
          ((dictFind
              (logStatusFS serialize st fs artworkId status errorMessage).1.error_log
              status).getD [])
          (pyStr artworkId)) = some d) ∧
    pyStr artworkId ∈
      (logStatusFS serialize st fs artworkId status errorMessage).1.processed_ids ∧
    (logStatusFS serialize st fs artworkId status errorMessage).2.progressFile =
      some (FileContent.full
        (serialize (logStatusFS serialize st fs artworkId status errorMessage).1)) ∧
    isProcessed (logStatusFS serialize st fs artworkId status errorMessage).1
      artworkId = true := by
  refine ⟨?_, ?_, ?_, ?_, ?_, ?_⟩
  · intro hs
    simp [logStatusFS, logStatusState, hs]
  · intro hs
    by_cases ht : optStrTruthy errorMessage <;>
      simp [logStatusFS, logStatusState, hs, ht]
  · intro hs d hd hne
    subst hd
    have ht : optStrTruthy (some d) = true := by
      simp [optStrTruthy, hne]
    simp [logStatusFS, logStatusState, hs, ht, dictFind_dictSet]
  · by_cases hs : status = "success"
    · simp [logStatusFS, logStatusState, hs]
    · by_cases ht : optStrTruthy errorMessage <;>
        simp [logStatusFS, logStatusState, hs, ht]
  · simp [logStatusFS, saveProgress]
  · have hmem : pyStr artworkId ∈
        (logStatusFS serialize st fs artworkId status errorMessage).1.processed_ids := by
      by_cases hs : status = "success"
      · simp [logStatusFS, logStatusState, hs]
      · by_cases ht : optStrTruthy errorMessage <;>
          simp [logStatusFS, logStatusState, hs, ht]
    simpa [isProcessed] using hmem

/-- Witness for C2 at a concrete failure outcome with a detail message. -/
theorem claim_C2_witness :
    pyStr (PyId.intId 5) ∈
      (logStatusFS (fun s => s) emptyProgressState
        ⟨none, none⟩ (PyId.intId 5) "network_error" (some "timeout")).1.failed_ids ∧
    (dictFind
        ((dictFind
            (logStatusFS (fun s => s) emptyProgressState
              ⟨none, none⟩ (PyId.intId 5) "network_error"
              (some "timeout")).1.error_log
            "network_error").getD [])
        (pyStr (PyId.intId 5))) = some "timeout" ∧
    isProcessed
      (logStatusFS (fun s => s) emptyProgressState
        ⟨none, none⟩ (PyId.intId 5) "network_error" (some "timeout")).1
      (PyId.intId 5) = true := by
  have h := claim_C2 (fun s => s) emptyProgressState ⟨none, none⟩
    (PyId.intId 5) "network_error" (some "timeout")
  exact ⟨h.2.1 (by decide), h.2.2.1 (by decide) "timeout" rfl (by decide),
    h.2.2.2.2.2⟩

/-- C10: `log_status` and `is_processed` normalize ids via `str(...)`: after
`log_status(x, outcome)` the call `is_processed(x)` returns true for any id
value x, and `is_processed` treats the integer `101` and the string `"101"`
as the same key. -/
theorem claim_C10 :
    (∀ (st : ProgressState) (x : PyId) (outcome : String)
        (msg : Option String),
      isProcessed (logStatusState st x outcome msg) x = true) ∧
    (∀ st : ProgressState,
      isProcessed st (PyId.intId 101) = isProcessed st (PyId.strId "101")) := by
  constructor
  · intro st x outcome msg
    by_cases hs : outcome = "success"
    · simp [isProcessed, logStatusState, hs]
    · by_cases ht : optStrTruthy msg <;>
        simp [isProcessed, logStatusState, hs, ht]
  · intro st
    have h : pyStr (PyId.intId 101) = pyStr (PyId.strId "101") := by decide
    simp [isProcessed, h]

/-! Section: substring search (Python `in` on strings) -/

/-- Whether `n` occurs at the head of `h` (char-by-char comparison). -/
def listPre : List Char → List Char → Bool
  | [], _ => true
  | _ :: _, [] => false
  | a :: as, b :: bs => a == b && listPre as bs

/-- Python `n in h` on strings: `n` occurs contiguously inside `h`. -/
def subStr (needle : List Char) : List Char → Bool
  | [] => needle.isEmpty
  | c :: rest => listPre needle (c :: rest) || subStr needle rest

/-- Embedding of `ArtworkDownloader._categorize_error` (artwork_downloader.py lines
238-253): lowercase the message, then match substrings in order. -/
def categorizeError (msg : String) : String :=
  let m := msg.toList.map Char.toLower
  if ["timeout", "connection", "network"].any (fun t => subStr t.toList m) then
    "network_error"
  else if ["image", "jpg", "jpeg", "png"].any (fun t => subStr t.toList m) then
    "image_processing_error"
  else if ["valid", "schema", "format"].any (fun t => subStr t.toList m) then
    "validation_error"
  else if ["download", "fetch", "retrieve"].any (fun t => subStr t.toList m) then
    "download_error"
  else if subStr "skip".toList m then "skipped"
  else "other_error"

/-! Section: `ArtworkDownloader.download_artwork` (artwork_downloader.py lines 80-125)

The record fields used by `download_artwork` are `id`, `title`, `artist`,
`is_public_domain`, `primary_image_url` and `image_id` of
`ArtworkMetadata`.  The database lookup (`artwork_repo.get_artwork`), the
HTTP GET (`session.get` + `raise_for_status`) and the AIC IIIF URL builder
are external capabilities, bundled in `DownloadEnv`.  Externally visible
actions of one `download_artwork` call are recorded as an `Effect` trace;
`savedImage` / `savedMetadata` are the persistence actions §4.4 steps 6-7
of the spec expect — the source of `download_artwork` contains no call
that would emit them. -/

structure ArtworkMeta where
  id : PyId
  title : String
  artist : String
  is_public_domain : Bool
  primary_image_url : Option String
  image_id : Option String

structure ExistingArtwork where
  image_path : Option String

structure DownloadEnv where
  existing : Option ExistingArtwork
  fetch : String → Except String (List Nat)
  buildImageUrl : String → String

inductive Effect where
  | fetched (url : String)
  | logged (id status : String) (msg : Option String)
  | savedImage (id : String)
  | savedMetadata (id : String)
deriving DecidableEq, Repr

/-- The test `if existing_artwork and existing_artwork.image_path:` (line 92). -/
def existingHit (env : DownloadEnv) : Bool :=
  match env.existing with
  | some a => optStrTruthy a.image_path
  | none => false

/-- Embedding of `ArtworkDownloader.download_artwork`: the per-item processing body.
Returns the tracker state after the call and the trace of externally
visible actions.  A fetch failure is caught by the `except` clause and
handled by `_handle_error` → `log_status(id, _categorize_error(e), e)`. -/
def downloadArtwork (env : DownloadEnv) (m : ArtworkMeta) (st : ProgressState) :
    ProgressState × List Effect :=
  if existingHit env then
    (logStatusState st m.id "skipped" (some "Already in database"),
      [Effect.logged (pyStr m.id) "skipped" (some "Already in database")])
  else if !m.is_public_domain then
    (logStatusState st m.id "skipped" (some "Not public domain"),
      [Effect.logged (pyStr m.id) "skipped" (some "Not public domain")])
  else if !optStrTruthy m.primary_image_url && !optStrTruthy m.image_id then
    (logStatusState st m.id "skipped" (some "No image available"),
      [Effect.logged (pyStr m.id) "skipped" (some "No image available")])
  else if optStrTruthy m.primary_image_url then
    let url := m.primary_image_url.getD ""
    match env.fetch url with
    | Except.ok _imageData => (st, [Effect.fetched url])
    | Except.error e =>
        (logStatusState st m.id (categorizeError e) (some e),
          [Effect.fetched url,
            Effect.logged (pyStr m.id) (categorizeError e) (some e)])
  else if optStrTruthy m.image_id then
    let url := env.buildImageUrl (m.image_id.getD "")
    match env.fetch url with
    | Except.ok _imageData => (st, [Effect.fetched url])
    | Except.error e =>
        (logStatusState st m.id (categorizeError e) (some e),
          [Effect.fetched url,
            Effect.logged (pyStr m.id) (categorizeError e) (some e)])
  else (st, [])

/-- An eligible artwork for the C3 scenario: unprocessed, public domain,
with a direct image URL. -/
def c3Meta : ArtworkMeta :=
  { id := PyId.strId "42", title := "Water Lilies", artist := "Monet",
    is_public_domain := true,
    primary_image_url := some "http://img.example/full.jpg",
    image_id := none }

/-- Environment for the C3 scenario: not in the database, fetch succeeds. -/
def c3Env : DownloadEnv :=
  { existing := none, fetch := fun _ => Except.ok [0, 1, 2],
    buildImageUrl := fun s => s }

/-- C3 (code bug): on an eligible artwork whose image bytes are fetched
without error, `download_artwork` fetches the bytes and then returns —
the trace holds the fetch only, the fetched data is discarded, no image or
metadata row is persisted, no `log_status('success')` happens, and the
tracker state (in particular `success_ids`) is unchanged.  This contradicts
the claim (and §4.4 steps 6-7 of the spec, and the downloader's own
summary reporting, which counts successes from `success_ids`). -/
theorem claim_C3 :
    downloadArtwork c3Env c3Meta emptyProgressState =
      (emptyProgressState, [Effect.fetched "http://img.example/full.jpg"]) ∧
    (downloadArtwork c3Env c3Meta emptyProgressState).1.success_ids = ∅ ∧
    ((downloadArtwork c3Env c3Meta emptyProgressState).2.all fun e =>
      match e with
      | Effect.savedImage _ => false
      | Effect.savedMetadata _ => false
      | Effect.logged _ _ _ => false
      | Effect.fetched _ => true) = true := by
  exact ⟨rfl, rfl, rfl⟩

/-- A non-public-domain artwork for the C5 scenario. -/
def c5Meta : ArtworkMeta :=
  { id := PyId.strId "7", title := "Guernica", artist := "Picasso",
    is_public_domain := false,
    primary_image_url := some "http://img.example/guernica.jpg",
    image_id := none }

/-- Environment for the C5 scenario: not in the database. -/
def c5Env : DownloadEnv :=
  { existing := none, fetch := fun _ => Except.ok [0],
    buildImageUrl := fun s => s }

/-- Counterexample to C5 as stated: a non-public-domain artwork is skipped
without fetching, but its id lands in `failed_ids` (because
`log_status(id, 'skipped', ...)` takes the non-success branch), so it is
not absent from `failed_ids`. -/
theorem claim_C5_cex :
    c5Meta.is_public_domain = false ∧
    (downloadArtwork c5Env c5Meta emptyProgressState).2 =
      [Effect.logged "7" "skipped" (some "Not public domain")] ∧
    "7" ∈ (downloadArtwork c5Env c5Meta emptyProgressState).1.failed_ids := by
  refine ⟨rfl, rfl, ?_⟩
  decide

/-- Helper: `log_status(id, 'skipped', msg)` with a non-empty message puts
the id in `processed_ids` and `failed_ids`, files the message under
`error_log['skipped'][id]`, and leaves `success_ids` unchanged. -/
theorem logStatus_skipped (st : ProgressState) (artworkId : PyId)
    (msg : String) (hmsg : msg ≠ "") :
    pyStr artworkId ∈
      (logStatusState st artworkId "skipped" (some msg)).processed_ids ∧
    pyStr artworkId ∈
      (logStatusState st artworkId "skipped" (some msg)).failed_ids ∧
    (logStatusState st artworkId "skipped" (some msg)).success_ids =
      st.success_ids ∧
    dictFind
      ((dictFind (logStatusState st artworkId "skipped" (some msg)).error_log
        "skipped").getD []) (pyStr artworkId) = some msg := by
  have hne : ("skipped" : String) ≠ "success" := by decide
  have ht : optStrTruthy (some msg) = true := by simp [optStrTruthy, hmsg]
  refine ⟨?_, ?_, ?_, ?_⟩
  · simp [logStatusState, hne, ht]
  · simp [logStatusState, hne, ht]
  · simp [logStatusState, hne, ht]
  · simp [logStatusState, hne, ht, dictFind_dictSet]

/-- C5 (amended): a non-public-domain artwork is never fetched for image
data — `download_artwork` returns at one of the two skip checks before
any HTTP request (at the database check when the artwork is already
stored with an image, otherwise at the public-domain check), recording
the item via `log_status(id, 'skipped', ...)`.  The id is added to
`processed_ids` AND to `failed_ids` (skips take the non-success branch
of `log_status`), the skip reason is filed under
`error_log['skipped'][id]`, and `success_ids` is unchanged, so the id
stays absent from it. -/
theorem claim_C5 (env : DownloadEnv) (m : ArtworkMeta) (st : ProgressState)
    (hpd : m.is_public_domain = false) :
    (∀ url, Effect.fetched url ∉ (downloadArtwork env m st).2) ∧
    pyStr m.id ∈ (downloadArtwork env m st).1.processed_ids ∧
    pyStr m.id ∈ (downloadArtwork env m st).1.failed_ids ∧
    (∃ msg, msg ≠ "" ∧
      dictFind ((dictFind (downloadArtwork env m st).1.error_log
        "skipped").getD []) (pyStr m.id) = some msg) ∧
    (downloadArtwork env m st).1.success_ids = st.success_ids := by
  cases hdb : existingHit env with
  | true =>
      have hda : downloadArtwork env m st =
          (logStatusState st m.id "skipped" (some "Already in database"),
            [Effect.logged (pyStr m.id) "skipped"
              (some "Already in database")]) := by
        simp [downloadArtwork, hdb]
      have h := logStatus_skipped st m.id "Already in database" (by decide)
      refine ⟨?_, ?_, ?_, ?_, ?_⟩
      · intro url
        simp [hda]
      · rw [hda]; exact h.1
      · rw [hda]; exact h.2.1
      · exact ⟨"Already in database", by decide, by rw [hda]; exact h.2.2.2⟩
      · rw [hda]; exact h.2.2.1
  | false =>
      have hda : downloadArtwork env m st =
          (logStatusState st m.id "skipped" (some "Not public domain"),
            [Effect.logged (pyStr m.id) "skipped"
              (some "Not public domain")]) := by
        simp [downloadArtwork, hdb, hpd]
      have h := logStatus_skipped st m.id "Not public domain" (by decide)
      refine ⟨?_, ?_, ?_, ?_, ?_⟩
      · intro url
        simp [hda]
      · rw [hda]; exact h.1
      · rw [hda]; exact h.2.1
      · exact ⟨"Not public domain", by decide, by rw [hda]; exact h.2.2.2⟩
      · rw [hda]; exact h.2.2.1

/-- Witness for C5 at the concrete non-public-domain artwork. -/
theorem claim_C5_witness :
    c5Meta.is_public_domain = false ∧
    Effect.fetched "http://img.example/guernica.jpg" ∉
      (downloadArtwork c5Env c5Meta emptyProgressState).2 ∧
    pyStr c5Meta.id ∈
      (downloadArtwork c5Env c5Meta emptyProgressState).1.processed_ids ∧
    pyStr c5Meta.id ∈
      (downloadArtwork c5Env c5Meta emptyProgressState).1.failed_ids := by
  have h := claim_C5 c5Env c5Meta emptyProgressState (by decide)
  exact ⟨by decide, h.1 "http://img.example/guernica.jpg", h.2.1, h.2.2.1⟩

/-! Section: `ArtworkDownloader.download_collection` (artwork_downloader.py lines 128-220)

The main loop pulls items from the adapter iterator; per iteration it
skips already-processed ids, calls `download_artwork`, and maintains a
`consecutive_errors` counter against the hard-coded
`max_consecutive_errors = 10`, with handlers meant to abort the run after
ten consecutive raising download steps and to treat an HTTP 400 as
end-of-collection.  Those handlers are unreachable: `download_artwork`
ends in a blanket `except Exception` (lines 122-125) that records the
failure via `_handle_error` and returns normally, so the call at line 171
never raises, and line 172 then sets `consecutive_errors = 0` after every
item, failed or not.  The embedding below therefore composes the loop
with this file's `downloadArtwork`, whose Lean type makes that totality
explicit; a run's input is the list of adapter yields, each paired with
its per-item external environment. -/

inductive RunStatus where
  | completed (reason : String)
  | aborted (reason : String)
deriving DecidableEq, Repr

/-- The threshold `max_consecutive_errors = 10` (artwork_downloader.py line 132). -/
def maxConsecutiveErrors : Nat := 10

/-- Embedding of `download_collection`'s `while True` loop composed with
`downloadArtwork`.  The first argument is `consecutive_errors`: the skip
branch (`continue`, line 165-167) leaves it unchanged, and after every
`download_artwork` call it is reset to 0 (line 172) because the call
returns without raising on every input; the `except` branches that would
increment it, abort the run, or complete it on HTTP 400 can never
execute, so the only exit is iterator exhaustion. -/
def downloadCollectionRun :
    Nat → ProgressState → List (DownloadEnv × ArtworkMeta) →
    ProgressState × RunStatus
  | _ce, st, [] => (st, RunStatus.completed "Reached end of collection")
  | ce, st, item :: rest =>
      if isProcessed st item.2.id then downloadCollectionRun ce st rest
      else downloadCollectionRun 0 (downloadArtwork item.1 item.2 st).1 rest

theorem downloadCollectionRun_completed
    (items : List (DownloadEnv × ArtworkMeta)) :
    ∀ (ce : Nat) (st : ProgressState),
      (downloadCollectionRun ce st items).2 =
        RunStatus.completed "Reached end of collection" := by
  induction items with
  | nil => intro ce st; rfl
  | cons item rest ih =>
      intro ce st
      by_cases hp : isProcessed st item.2.id
      · simpa [downloadCollectionRun, hp] using ih ce st
      · simpa [downloadCollectionRun, hp] using
          ih 0 (downloadArtwork item.1 item.2 st).1

/-- An environment in which the image fetch fails with a connection
error (categorized `network_error` by `_categorize_error`). -/
def c4FailEnv : DownloadEnv :=
  { existing := none, fetch := fun _ => Except.error "connection error",
    buildImageUrl := fun s => s }

/-- An eligible artwork (public domain, direct image URL) whose fetch
will fail. -/
def c4Item (n : Nat) : DownloadEnv × ArtworkMeta :=
  (c4FailEnv,
    { id := PyId.intId n, title := "T", artist := "A",
      is_public_domain := true,
      primary_image_url := some "http://img.example/full.jpg",
      image_id := none })

/-- Ten consecutive item-download failures — the threshold's worth. -/
def c4Items : List (DownloadEnv × ArtworkMeta) :=
  [c4Item 1, c4Item 2, c4Item 3, c4Item 4, c4Item 5, c4Item 6, c4Item 7,
    c4Item 8, c4Item 9, c4Item 10]

/-- C4 (code bug): `download_collection` composed with the file's own
(total) `download_artwork` can never reach the ABORTED status — every run
ends COMPLETED by iterator exhaustion, for any counter value, state and
item list — and in particular ten consecutive item-download failures
(ten = `max_consecutive_errors`) leave the run COMPLETED with all ten
ids recorded as failures and none as successes, instead of driving it to
ABORTED as the claim (and the loop's own abort handlers, counter and log
messages, which are dead code behind `download_artwork`'s blanket
`except` at lines 122-125) intend. -/
theorem claim_C4 :
    (∀ (ce : Nat) (st : ProgressState)
        (items : List (DownloadEnv × ArtworkMeta)) (r : String),
      (downloadCollectionRun ce st items).2 ≠ RunStatus.aborted r) ∧
    c4Items.length = maxConsecutiveErrors ∧
    (downloadCollectionRun 0 emptyProgressState c4Items).2 =
      RunStatus.completed "Reached end of collection" ∧
    (downloadCollectionRun 0 emptyProgressState c4Items).1.failed_ids =
      {"1", "2", "3", "4", "5", "6", "7", "8", "9", "10"} ∧
    (downloadCollectionRun 0 emptyProgressState c4Items).1.success_ids
      = ∅ := by
  refine ⟨?_, rfl, ?_, ?_, ?_⟩
  · intro ce st items r h
    rw [downloadCollectionRun_completed items ce st] at h
    exact RunStatus.noConfusion h
  · exact downloadCollectionRun_completed c4Items 0 emptyProgressState
  · decide
  · decide

/-! Section: `MuseumAPIClient.iter_collection` (base.py lines 57-66)

The public wrapper is a generator: `yield from self._iter_collection_impl(...)`
inside a `try` whose `except Exception` logs the error and returns.  An
implementation run is modelled as the records it yields before it either
finishes normally (`none`) or raises (`some errorMessage`). -/

/-- The consumer-visible output of `iter_collection` given the underlying
implementation's yields and terminal behavior: records pass through one by
one; at the point the implementation raises, the wrapper catches the
exception and ends the iteration. -/
def iterCollection {α : Type} : List α × Option String → List α
  | ([], _) => []
  | (a :: rest, t) => a :: iterCollection (rest, t)

/-- C9: if the underlying `_iter_collection_impl` raises after yielding k
records, `iter_collection` yields exactly those k records and terminates
normally — the exception never propagates, and the output is
indistinguishable from normal exhaustion after the same records. -/
theorem claim_C9 {α : Type} (yields : List α) (err : String) :
    iterCollection (yields, some err) = yields ∧
    iterCollection (yields, some err) = iterCollection (yields, none) := by
  have hall : ∀ (t : Option String), iterCollection (yields, t) = yields := by
    intro t
    induction yields with
    | nil => simp [iterCollection]
    | cons a rest ih => simpa [iterCollection] using ih
  exact ⟨hall (some err), by rw [hall (some err), hall none]⟩

/-! Section: the three tracker variants' state (de)serialization (C6)

Each subclass overrides `get_state_dict` / `restore_state`.  The dict
structures below carry exactly the keys the corresponding `get_state_dict`
writes; `restore_state` assigns exactly the listed fields of the live state
object (fields it does not mention keep the value the freshly constructed
state had). -/

/-- Embedding of `AICProgressState` (aic.py lines 208-217). -/
structure AICState where
  processed_ids : Finset String
  success_ids : Finset String
  failed_ids : Finset String
  error_log : ErrorLog
  last_page : Nat
  total_pages : Nat
  last_processed_index : Nat
  total_files : Nat
deriving DecidableEq

/-- Keys written by `AICProgressTracker.get_state_dict` (aic.py lines
226-234): note `last_processed_index` and `total_files` are absent. -/
structure AICStateDict where
  processed_ids : Finset String
  success_ids : Finset String
  failed_ids : Finset String
  error_log : ErrorLog
  last_page : Nat
  total_pages : Nat
deriving DecidableEq

/-- Fresh `AICProgressState()` (dataclass defaults). -/
def aicFreshState : AICState :=
  { processed_ids := ∅, success_ids := ∅, failed_ids := ∅, error_log := [],
    last_page := 0, total_pages := 0, last_processed_index := 0,
    total_files := 0 }

/-- Embedding of `AICProgressTracker.get_state_dict` (aic.py lines 226-234). -/
def aicGetStateDict (s : AICState) : AICStateDict :=
  { processed_ids := s.processed_ids, success_ids := s.success_ids,
    failed_ids := s.failed_ids, error_log := s.error_log,
    last_page := s.last_page, total_pages := s.total_pages }

/-- Embedding of `AICProgressTracker.restore_state` (aic.py lines 236-242): assigns the
six serialized fields onto the live state object. -/
def aicRestoreState (s : AICState) (d : AICStateDict) : AICState :=
  { s with
      processed_ids := d.processed_ids
      success_ids := d.success_ids
      failed_ids := d.failed_ids
      error_log := d.error_log
      last_page := d.last_page
      total_pages := d.total_pages }

/-- Embedding of `MetProgressState` (met.py lines 272-280). -/
structure MetState where
  processed_ids : Finset String
  success_ids : Finset String
  failed_ids : Finset String
  error_log : ErrorLog
  total_objects : Nat
  last_object_id : Option String
deriving DecidableEq

/-- Keys written by `MetProgressTracker.get_state_dict` (met.py 289-302). -/
structure MetStateDict where
  processed_ids : Finset String
  success_ids : Finset String
  failed_ids : Finset String
  error_log : ErrorLog
  total_objects : Nat
  last_object_id : Option String
deriving DecidableEq

def metFreshState : MetState :=
  { processed_ids := ∅, success_ids := ∅, failed_ids := ∅, error_log := [],
    total_objects := 0, last_object_id := none }

/-- Embedding of `MetProgressTracker.get_state_dict` (met.py lines 289-302). -/
def metGetStateDict (s : MetState) : MetStateDict :=
  { processed_ids := s.processed_ids, success_ids := s.success_ids,
    failed_ids := s.failed_ids, error_log := s.error_log,
    total_objects := s.total_objects, last_object_id := s.last_object_id }

/-- Embedding of `MetProgressTracker.restore_state` (met.py lines 304-311). -/
def metRestoreState (s : MetState) (d : MetStateDict) : MetState :=
  { s with
      processed_ids := d.processed_ids
      success_ids := d.success_ids
      failed_ids := d.failed_ids
      error_log := d.error_log
      total_objects := d.total_objects
      last_object_id := d.last_object_id }

/-- Embedding of `CMAProgressState` (cma.py lines 279-288), plus the `last_object_id`
attribute that `download_collection` (artwork_downloader.py line 156)
assigns dynamically onto it. -/
structure CMAState where
  processed_ids : Finset String
  success_ids : Finset String
  failed_ids : Finset String
  error_log : ErrorLog
  total_objects : Nat
  last_processed_index : Nat
  last_object_id : Option String
deriving DecidableEq

/-- Keys written by `CMAProgressTracker.get_state_dict` (cma.py 297-305):
note `last_object_id` is absent. -/
structure CMAStateDict where
  processed_ids : Finset String
  success_ids : Finset String
  failed_ids : Finset String
  error_log : ErrorLog
  total_objects : Nat
  last_processed_index : Nat
deriving DecidableEq

def cmaFreshState : CMAState :=
  { processed_ids := ∅, success_ids := ∅, failed_ids := ∅, error_log := [],
    total_objects := 0, last_processed_index := 0, last_object_id := none }

/-- Embedding of `CMAProgressTracker.get_state_dict` (cma.py lines 297-305). -/
def cmaGetStateDict (s : CMAState) : CMAStateDict :=
  { processed_ids := s.processed_ids, success_ids := s.success_ids,
    failed_ids := s.failed_ids, error_log := s.error_log,
    total_objects := s.total_objects,
    last_processed_index := s.last_processed_index }

/-- Embedding of `CMAProgressTracker.restore_state` (cma.py lines 307-314). -/
def cmaRestoreState (s : CMAState) (d : CMAStateDict) : CMAState :=
  { s with
      processed_ids := d.processed_ids
      success_ids := d.success_ids
      failed_ids := d.failed_ids
      error_log := d.error_log
      total_objects := d.total_objects
      last_processed_index := d.last_processed_index }

/-- An AIC tracker state part-way through a data-dump run. -/
def aicSampleState : AICState :=
  { processed_ids := {"11", "12"}, success_ids := {"11"},
    failed_ids := {"12"},
    error_log := [("network_error", [("12", "timeout")])],
    last_page := 2, total_pages := 3, last_processed_index := 5,
    total_files := 7 }

/-- Counterexample to C6 as stated: for the AIC tracker (the dump-file
source), saving via `get_state_dict` and restoring via `restore_state`
into a freshly constructed state loses the dump-file cursor —
`last_processed_index` 5 and `total_files` 7 come back as 0. -/
theorem claim_C6_cex :
    aicSampleState.last_processed_index = 5 ∧
    aicSampleState.total_files = 7 ∧
    (aicRestoreState aicFreshState
      (aicGetStateDict aicSampleState)).last_processed_index = 0 ∧
    (aicRestoreState aicFreshState
      (aicGetStateDict aicSampleState)).total_files = 0 := by
  exact ⟨rfl, rfl, rfl, rfl⟩

/-- C6 (amended): saving then restoring into a freshly constructed state
round-trips `processed_ids`, `success_ids`, `failed_ids` and `error_log`
for all three tracker variants, and round-trips exactly the cursor fields
each `get_state_dict` serializes: `last_page`/`total_pages` for AIC,
`last_object_id`/`total_objects` for Met, and
`last_processed_index`/`total_objects` for CMA.  AIC's dump-file cursor
(`last_processed_index`/`total_files`) and CMA's dynamically assigned
`last_object_id` are NOT serialized and reset to their defaults. -/
theorem claim_C6 :
    (∀ s : AICState,
      aicRestoreState aicFreshState (aicGetStateDict s) =
        { s with last_processed_index := 0, total_files := 0 }) ∧
    (∀ s : MetState,
      metRestoreState metFreshState (metGetStateDict s) = s) ∧
    (∀ s : CMAState,
      cmaRestoreState cmaFreshState (cmaGetStateDict s) =
        { s with last_object_id := none }) := by
  refine ⟨?_, ?_, ?_⟩
  · intro s; cases s; rfl
  · intro s; cases s; rfl
  · intro s; cases s; rfl

/-! Section: `_iter_data_dump` (aic.py lines 119-153; cma.py lines 64-90 is the
same shape over one JSON array instead of one file per record)

The files are enumerated in a stable sorted order starting from the
tracker's `last_processed_index`.  Per file: parse, build metadata; `if
metadata and metadata.is_public_domain:` set
`state.last_processed_index = idx`, `_save_progress()`, and yield; a parse
or factory exception is logged and the loop continues.  Each file is one
`DumpEntry`: it failed to parse, produced no metadata, or produced a
record with a public-domain flag. -/

inductive DumpEntry where
  | parseError
  | noMetadata
  | record (publicDomain : Bool) (artId : String)
deriving DecidableEq, Repr

/-- A file position whose entry passes the `metadata and
metadata.is_public_domain` filter and is therefore yielded. -/
def entryYields : DumpEntry → Bool
  | DumpEntry.record true _ => true
  | _ => false

structure DumpRun where
  finalIndex : Nat
  saves : List Nat
  yields : List String
deriving DecidableEq, Repr

/-- The `for idx, file_path in enumerate(artwork_files[start_idx:],
start=start_idx)` loop: `pos` is the enumeration counter, `cur` the
tracker's current `last_processed_index`.  `saves` records each value of
`last_processed_index` passed to `_save_progress`, in order. -/
def iterDumpGo : List DumpEntry → Nat → Nat → DumpRun
  | [], _, cur => { finalIndex := cur, saves := [], yields := [] }
  | e :: rest, pos, cur =>
    match e with
    | DumpEntry.record true i =>
        let r := iterDumpGo rest (pos + 1) pos
        { finalIndex := r.finalIndex, saves := pos :: r.saves,
          yields := i :: r.yields }
    | _ => iterDumpGo rest (pos + 1) cur

/-- Embedding of `_iter_data_dump`: slice the sorted file list at the saved index and
run the loop from there. -/
def iterDataDump (startIdx : Nat) (files : List DumpEntry) : DumpRun :=
  iterDumpGo (files.drop startIdx) startIdx startIdx

/-- The positions (counted from `pos`) of the entries that pass the
public-domain filter. -/
def yieldPositions : Nat → List DumpEntry → List Nat
  | _, [] => []
  | pos, e :: rest =>
      if entryYields e then pos :: yieldPositions (pos + 1) rest
      else yieldPositions (pos + 1) rest

theorem iterDumpGo_saves (files : List DumpEntry) :
    ∀ (pos cur : Nat),
      (iterDumpGo files pos cur).saves = yieldPositions pos files := by
  induction files with
  | nil => intro pos cur; simp [iterDumpGo, yieldPositions]
  | cons e rest ih =>
      intro pos cur
      cases e with
      | parseError => simp [iterDumpGo, yieldPositions, entryYields, ih]
      | noMetadata => simp [iterDumpGo, yieldPositions, entryYields, ih]
      | record pd i =>
          cases pd with
          | false => simp [iterDumpGo, yieldPositions, entryYields, ih]
          | true => simp [iterDumpGo, yieldPositions, entryYields, ih]

theorem iterDumpGo_finalIndex (files : List DumpEntry) :
    ∀ (pos cur : Nat),
      (iterDumpGo files pos cur).finalIndex =
        (iterDumpGo files pos cur).saves.getLast?.getD cur := by
  induction files with
  | nil => intro pos cur; simp [iterDumpGo]
  | cons e rest ih =>
      intro pos cur
      cases e with
      | parseError => simpa [iterDumpGo] using ih (pos + 1) cur
      | noMetadata => simpa [iterDumpGo] using ih (pos + 1) cur
      | record pd i =>
          cases pd with
          | false => simpa [iterDumpGo] using ih (pos + 1) cur
          | true =>
              have h := ih (pos + 1) pos
              simp only [iterDumpGo]
              rw [h]
              cases hs : (iterDumpGo rest (pos + 1) pos).saves with
              | nil => simp
              | cons a tl =>
                  have hsome : (a :: tl).getLast?.isSome := by
                    rw [List.getLast?_isSome]
                    simp
                  obtain ⟨x, hx⟩ := Option.isSome_iff_exists.mp hsome
                  simp [hx]

theorem yieldPositions_ge (files : List DumpEntry) :
    ∀ (pos x : Nat), x ∈ yieldPositions pos files → pos ≤ x := by
  induction files with
  | nil => intro pos x hx; simp [yieldPositions] at hx
  | cons e rest ih =>
      intro pos x hx
      by_cases hy : entryYields e
      · simp [yieldPositions, hy] at hx
        rcases hx with hx | hx
        · omega
        · have := ih (pos + 1) x hx
          omega
      · simp [yieldPositions, hy] at hx
        have := ih (pos + 1) x hx
        omega

theorem yieldPositions_chain (files : List DumpEntry) :
    ∀ pos : Nat, List.Chain' (· < ·) (yieldPositions pos files) := by
  induction files with
  | nil => intro pos; simp [yieldPositions]
  | cons e rest ih =>
      intro pos
      by_cases hy : entryYields e
      · simp only [yieldPositions, hy, if_pos]
        refine List.chain'_cons'.2 ⟨?_, ih (pos + 1)⟩
        intro y hy'
        have hmem : y ∈ yieldPositions (pos + 1) rest :=
          List.mem_of_mem_head? hy'
        have := yieldPositions_ge rest (pos + 1) y hmem
        omega
      · simpa [yieldPositions, hy] using ih (pos + 1)

/-- Counterexample to C7 as stated: a dump of two files, where file 0
yields a public-domain record and file 1 is filtered out (not public
domain).  Both files are read, but the persisted `last_processed_index`
ends at 0 — it was saved only for the yielding file 0 and did not advance
when file 1 was read, contradicting "the index advances for every file
read, including files filtered out". -/
theorem claim_C7_cex :
    (iterDataDump 0
        [DumpEntry.record true "a", DumpEntry.record false "b"]).finalIndex
      = 0 ∧
    (iterDataDump 0
        [DumpEntry.record true "a", DumpEntry.record false "b"]).saves
      = [0] ∧
    (iterDataDump 0
        [DumpEntry.record true "a", DumpEntry.record false "b"]).yields
      = ["a"] := by
  exact ⟨rfl, rfl, rfl⟩

/-- C7 (amended): in dump-file iteration the persisted
`last_processed_index` is written exactly at the files that yield (parse
successfully, produce metadata, and are public domain), set to that file's
position in the stable sorted order; the sequence of persisted values is
strictly increasing in file position; and the final index is the last
persisted position (or the starting index when nothing yields).  Files
filtered out as not public domain, or failing to parse, do NOT advance the
persisted index. -/
theorem claim_C7 (startIdx : Nat) (files : List DumpEntry) :
    (iterDataDump startIdx files).saves =
      yieldPositions startIdx (files.drop startIdx) ∧
    List.Chain' (· < ·) (iterDataDump startIdx files).saves ∧
    (iterDataDump startIdx files).finalIndex =
      (iterDataDump startIdx files).saves.getLast?.getD startIdx := by
  refine ⟨?_, ?_, ?_⟩
  · exact iterDumpGo_saves (files.drop startIdx) startIdx startIdx
  · show List.Chain' (· < ·)
      (iterDumpGo (files.drop startIdx) startIdx startIdx).saves
    rw [iterDumpGo_saves (files.drop startIdx) startIdx startIdx]
    exact yieldPositions_chain (files.drop startIdx) startIdx
  · exact iterDumpGo_finalIndex (files.drop startIdx) startIdx startIdx

/-! Section: `sanitize_filename` (utils.py lines 95-151)

`clean_text` is `re.sub(r'[<>:\"/\\|?*]', '', text)` followed by
`' '.join(text.split())`; the title is truncated with the Python slice
`clean_title[:max_title_length-3] + "..."` where `max_title_length` is a
possibly negative int, so the slice bound keeps Python semantics (a
negative bound counts from the end of the string). -/

def forbiddenChars : List Char := ['<', '>', ':', '\"', '/', '\\', '|', '?', '*']

def isForbidden (c : Char) : Bool := forbiddenChars.contains c

/-- The substitution `re.sub(r'[<>:\"/\\|?*]', '', text)`. -/
def removeForbidden (s : List Char) : List Char := s.filter (fun c => !isForbidden c)

/-- The whitespace class of Python `str.split()`. -/
def isPySpace (c : Char) : Bool :=
  c == ' ' || c == '\t' || c == '\n' || c == '\r' || c == '\x0b' || c == '\x0c'

/-- Python `text.split()`: split on whitespace runs, dropping empties
(`acc` holds the current token, reversed). -/
def splitWsAux : List Char → List Char → List (List Char)
  | [], acc => if acc.isEmpty then [] else [acc.reverse]
  | c :: rest, acc =>
      if isPySpace c then
        if acc.isEmpty then splitWsAux rest []
        else acc.reverse :: splitWsAux rest []
      else splitWsAux rest (c :: acc)

/-- The join `' '.join(tokens)`. -/
def joinSp : List (List Char) → List Char
  | [] => []
  | [t] => t
  | t :: u :: rest => t ++ ' ' :: joinSp (u :: rest)

/-- Helper `clean_text` from `sanitize_filename`. -/
def cleanText (s : List Char) : List Char :=
  joinSp (splitWsAux (removeForbidden s) [])

/-- Python `s[:k]` with a possibly negative int bound. -/
def pyTake (s : List Char) (k : Int) : List Char :=
  if 0 ≤ k then s.take k.toNat else s.take ((s.length : Int) + k).toNat

/-- Embedding of `sanitize_filename(id, title, artist, max_length)` (utils.py 95-151). -/
def sanitizeFilename (id title artist : String) (maxLength : Nat) :
    Except String String :=
  if id = "" then Except.error "ID cannot be None or empty"
  else
    let title := if title = "" then "Untitled" else title
    let artist := if artist = "" then "Unknown" else artist
    let cleanTitle := cleanText title.data
    let cleanArtist := cleanText artist.data
    let idLength := id.data.length
    let artistLength := cleanArtist.length
    let maxTitleLength : Int :=
      (maxLength : Int) - ((idLength : Int) + (artistLength : Int) + 4 + 2)
    let cleanTitle :=
      if maxTitleLength < (cleanTitle.length : Int) then
        pyTake cleanTitle (maxTitleLength - 3) ++ ['.', '.', '.']
      else cleanTitle
    Except.ok ⟨id.data ++ ('_' :: (cleanTitle ++ ('_' :: (cleanArtist ++
      ['.', 'j', 'p', 'g']))))⟩

theorem mem_removeForbidden {s : List Char} {c : Char}
    (h : c ∈ removeForbidden s) : isForbidden c = false := by
  simp [removeForbidden] at h
  exact h.2

theorem mem_splitWsAux (l : List Char) :
    ∀ (acc t : List Char), t ∈ splitWsAux l acc →
      ∀ c ∈ t, c ∈ l ∨ c ∈ acc := by
  induction l with
  | nil =>
      intro acc t ht c hc
      by_cases hacc : acc.isEmpty
      · simp [splitWsAux, hacc] at ht
      · simp [splitWsAux, hacc] at ht
        subst ht
        right
        simpa using hc
  | cons a rest ih =>
      intro acc t ht c hc
      by_cases hsp : isPySpace a
      · by_cases hacc : acc.isEmpty
        · simp [splitWsAux, hsp, hacc] at ht
          rcases ih [] t ht c hc with h | h
          · exact Or.inl (by simp [h])
          · simp at h
        · simp [splitWsAux, hsp, hacc] at ht
          rcases ht with ht | ht
          · subst ht
            right
            simpa using hc
          · rcases ih [] t ht c hc with h | h
            · exact Or.inl (by simp [h])
            · simp at h
      · simp [splitWsAux, hsp] at ht
        rcases ih (a :: acc) t ht c hc with h | h
        · exact Or.inl (by simp [h])
        · rcases List.mem_cons.1 h with h | h
          · exact Or.inl (by simp [h])
          · exact Or.inr h

theorem mem_joinSp (ts : List (List Char)) :
    ∀ c ∈ joinSp ts, c = ' ' ∨ ∃ t ∈ ts, c ∈ t := by
  induction ts with
  | nil => intro c hc; simp [joinSp] at hc
  | cons t rest ih =>
      intro c hc
      cases rest with
      | nil =>
          simp [joinSp] at hc
          exact Or.inr ⟨t, by simp, hc⟩
      | cons u rest' =>
          simp only [joinSp, List.mem_append, List.mem_cons] at hc
          rcases hc with hc | hc
          · exact Or.inr ⟨t, by simp, hc⟩
          · rcases hc with hc | hc
            · exact Or.inl hc
            · rcases ih c hc with h | ⟨t', ht', hct'⟩
              · exact Or.inl h
              · exact Or.inr ⟨t', by simp [ht'], hct'⟩

theorem mem_cleanText {s : List Char} {c : Char} (h : c ∈ cleanText s) :
    isForbidden c = false := by
  rcases mem_joinSp _ c h with h' | ⟨t, ht, hct⟩
  · subst h'
    decide
  · rcases mem_splitWsAux _ [] t ht c hct with h' | h'
    · exact mem_removeForbidden h'
    · simp at h'

theorem pyTake_length_le (s : List Char) (k : Int) (hk : 0 ≤ k) :
    ((pyTake s k).length : Int) ≤ k := by
  simp only [pyTake, if_pos hk]
  rw [List.length_take]
  omega

theorem listPre_self_append (n s : List Char) : listPre n (n ++ s) = true := by
  induction n with
  | nil => simp [listPre]
  | cons a as ih => simp [listPre, ih]

theorem subStr_of_listPre {n h : List Char} (hp : listPre n h = true) :
    subStr n h = true := by
  cases h with
  | nil =>
      cases n with
      | nil => simp [subStr]
      | cons a as => simp [listPre] at hp
  | cons c rest => simp [subStr, hp]

theorem subStr_cons {n t : List Char} (c : Char) (h : subStr n t = true) :
    subStr n (c :: t) = true := by
  simp [subStr, h]

theorem subStr_append_right {n t : List Char} (h : List Char)
    (hs : subStr n t = true) : subStr n (h ++ t) = true := by
  induction h with
  | nil => simpa using hs
  | cons c rest ih => simpa using subStr_cons c ih

theorem mem_pyTake {s : List Char} {k : Int} {c : Char}
    (h : c ∈ pyTake s k) : c ∈ s := by
  unfold pyTake at h
  split at h <;> exact List.take_subset _ _ h

theorem sanitizeAssembled (idD ct aD : List Char)
    (hidP : ∀ c ∈ idD, isForbidden c = false)
    (hctP : ∀ c ∈ ct, isForbidden c = false)
    (haP : ∀ c ∈ aD, isForbidden c = false) :
    ((idD ++ ('_' :: (ct ++ ('_' :: (aD ++ ['.', 'j', 'p', 'g']))))).all
      (fun c => !isForbidden c) = true) ∧
    subStr idD (idD ++ ('_' :: (ct ++ ('_' :: (aD ++ ['.', 'j', 'p', 'g'])))))
      = true ∧
    subStr aD (idD ++ ('_' :: (ct ++ ('_' :: (aD ++ ['.', 'j', 'p', 'g'])))))
      = true := by
  refine ⟨?_, ?_, ?_⟩
  · rw [List.all_eq_true]
    intro c hc
    simp only [List.mem_append, List.mem_cons, List.not_mem_nil, or_false]
      at hc
    rcases hc with hc | hc | hc | hc | hc | hc | hc | hc | hc
    · simp [hidP c hc]
    · subst hc; decide
    · simp [hctP c hc]
    · subst hc; decide
    · simp [haP c hc]
    · subst hc; decide
    · subst hc; decide
    · subst hc; decide
    · subst hc; decide
  · exact subStr_of_listPre (listPre_self_append idD _)
  · have s1 : subStr aD (aD ++ ['.', 'j', 'p', 'g']) = true :=
      subStr_of_listPre (listPre_self_append aD _)
    have s2 := subStr_cons '_' s1
    have s3 := subStr_append_right ct s2
    have s4 := subStr_cons '_' s3
    exact subStr_append_right idD s4

set_option maxRecDepth 4000 in
/-- C8 (amended): for a non-empty id with no forbidden filename
characters, an artist string that `clean_text` leaves unchanged (no
forbidden characters, whitespace already collapsed), and a `max_length`
budget of at least `len(id) + len(artist) + 9` (room for the two
separators, the ".jpg" extension and the "..." ellipsis), the generated
filename is at most `max_length` characters, contains no forbidden
characters, and contains the id and the artist as literal substrings —
for every title, including titles of 300 or more characters and titles
containing forbidden characters.  (The unrestricted claim is false: see
the counterexample, the id is never cleaned and the artist is cleaned
rather than preserved, and the length bound fails when id and artist
overrun the budget by themselves.) -/
theorem claim_C8 (id title artist : String) (maxLength : Nat)
    (hid : id ≠ "") (hartist : artist ≠ "")
    (hidClean : id.data.all (fun c => !isForbidden c) = true)
    (hartistClean : cleanText artist.data = artist.data)
    (hlen : id.length + artist.length + 9 ≤ maxLength) :
    (∃ f, sanitizeFilename id title artist maxLength = Except.ok f) ∧
    (∀ f, sanitizeFilename id title artist maxLength = Except.ok f →
      f.length ≤ maxLength ∧
      f.data.all (fun c => !isForbidden c) = true ∧
      subStr id.data f.data = true ∧
      subStr artist.data f.data = true) := by
  have hA : (if artist = "" then "Unknown" else artist) = artist :=
    if_neg hartist
  have hidP : ∀ c ∈ id.data, isForbidden c = false := by
    rw [List.all_eq_true] at hidClean
    intro c hc
    simpa using hidClean c hc
  have haP : ∀ c ∈ artist.data, isForbidden c = false := by
    intro c hc
    rw [← hartistClean] at hc
    exact mem_cleanText hc
  have hlenD : id.data.length + artist.data.length + 9 ≤ maxLength := hlen
  constructor
  · cases hres : sanitizeFilename id title artist maxLength with
    | error e =>
        exfalso
        simp only [sanitizeFilename, if_neg hid] at hres
        exact Except.noConfusion hres
    | ok f => exact ⟨f, rfl⟩
  · intro f hf
    simp only [sanitizeFilename, if_neg hid, hA, hartistClean] at hf
    injection hf with hf'
    subst hf'
    generalize hG : cleanText (if title = "" then "Untitled" else title).data
      = ct0
    have hct0P : ∀ c ∈ ct0, isForbidden c = false := by
      intro c hc
      rw [← hG] at hc
      exact mem_cleanText hc
    set mtl : Int := (maxLength : Int) -
      ((id.data.length : Int) + (artist.data.length : Int) + 4 + 2) with hmtl
    by_cases htr : mtl < (ct0.length : Int)
    · simp only [if_pos htr]
      have h3 : (0 : Int) ≤ mtl - 3 := by
        rw [hmtl]
        omega
      have hptl := pyTake_length_le ct0 (mtl - 3) h3
      have hctP : ∀ c ∈ pyTake ct0 (mtl - 3) ++ ['.', '.', '.'],
          isForbidden c = false := by
        intro c hc
        rcases List.mem_append.1 hc with hc | hc
        · exact hct0P c (mem_pyTake hc)
        · simp at hc
          subst hc
          decide
      have hasm := sanitizeAssembled id.data
        (pyTake ct0 (mtl - 3) ++ ['.', '.', '.']) artist.data hidP hctP haP
      refine ⟨?_, hasm.1, hasm.2.1, hasm.2.2⟩
      show (id.data ++ ('_' :: ((pyTake ct0 (mtl - 3) ++ ['.', '.', '.']) ++
        ('_' :: (artist.data ++ ['.', 'j', 'p', 'g']))))).length ≤ maxLength
      simp only [List.length_append, List.length_cons]
      simp only [List.length_cons, List.length_nil]
      omega
    · simp only [if_neg htr]
      have hasm := sanitizeAssembled id.data ct0 artist.data hidP hct0P haP
      refine ⟨?_, hasm.1, hasm.2.1, hasm.2.2⟩
      show (id.data ++ ('_' :: (ct0 ++
        ('_' :: (artist.data ++ ['.', 'j', 'p', 'g']))))).length ≤ maxLength
      simp only [List.length_append, List.length_cons]
      simp only [List.length_cons, List.length_nil]
      omega

/-- Witness for C8 at a concrete id, artist, over-long and dirty title. -/
theorem claim_C8_witness :
    ("AIC_27992" : String) ≠ "" ∧ ("Georges Seurat" : String) ≠ "" ∧
    "AIC_27992".data.all (fun c => !isForbidden c) = true ∧
    cleanText "Georges Seurat".data = "Georges Seurat".data ∧
    "AIC_27992".length + "Georges Seurat".length + 9 ≤ 255 ∧
    (∃ f, sanitizeFilename "AIC_27992" "A Sunday <on> La/Grande|Jatte?"
        "Georges Seurat" 255 = Except.ok f) := by
  have h := claim_C8 "AIC_27992" "A Sunday <on> La/Grande|Jatte?"
    "Georges Seurat" 255 (by decide) (by decide) (by decide) (by decide)
    (by decide)
  exact ⟨by decide, by decide, by decide, by decide, by decide, h.1⟩

/-- Counterexample to C8 as stated: with artist `"a/b"` (which contains a
forbidden character) the generated filename is `"1_t_ab.jpg"`, which does
not contain the artist string `"a/b"` as a literal substring — the artist
is cleaned, not preserved in full. -/
theorem claim_C8_cex :
    sanitizeFilename "1" "t" "a/b" 255 = Except.ok "1_t_ab.jpg" ∧
    subStr "a/b".data "1_t_ab.jpg".data = false := by
  constructor
  · rfl
  · decide
